import Mathlib

/-!
Shallow embedding of `src/kern.c` from smcroute: the kernel API layer for
joining/leaving multicast groups and adding/deleting multicast routes.

Stateful C code is modelled as pure functions returning a result code
(`Int`, matching the C `int` returns) together with a trace of observable
events (log lines, `setsockopt` kernel calls, mrdisc notifications).
The outcome of the one kernel call each operation makes is an oracle
input `kern : Option Nat`: `none` means the call succeeds (returns 0),
`some e` means it fails with `errno = e`.
-/

/-- Address family tag (`ss_family`): `AF_INET` or `AF_INET6`. -/
inductive Family where
  | inet
  | inet6
deriving DecidableEq, Repr

/-- A family-tagged socket address (`struct sockaddr_storage` as used here):
the raw address bytes plus the family tag. -/
structure InetAddr where
  family : Family
  bytes : List Nat
deriving DecidableEq, Repr

/-- Modelled from the spec: `is_any(addr) -> bool` of the Address Codec
(`is_anyaddr`, declared outside `src/`): "true when the address is the
all-zeros unspecified value". -/
def is_anyaddr (a : InetAddr) : Bool :=
  a.bytes.all (fun b => b = 0)

/-- The `IPPROTO_IP` protocol level. -/
def IPPROTO_IP : Nat := 0

/-- The `IPPROTO_IPV6` protocol level. -/
def IPPROTO_IPV6 : Nat := 41

/-- The `ENOENT` OS error code ("entry does not exist"). -/
def ENOENT : Nat := 2

/-- ASCII code of the join command character `j` used by `kern_join_leave`. -/
def CMD_JOIN : Nat := 106

/-- ASCII code of the add command character `a` used by the mroute functions. -/
def CMD_ADD : Nat := 97

/-- The socket-option names this file passes to `setsockopt`. -/
inductive SockOpt where
  | MCAST_JOIN_GROUP
  | MCAST_LEAVE_GROUP
  | MCAST_JOIN_SOURCE_GROUP
  | MCAST_LEAVE_SOURCE_GROUP
  | IPV6_JOIN_GROUP
  | IPV6_LEAVE_GROUP
  | IP_ADD_MEMBERSHIP
  | IP_DROP_MEMBERSHIP
  | MRT_ADD_MFC
  | MRT_DEL_MFC
  | MRT6_ADD_MFC
  | MRT6_DEL_MFC
deriving DecidableEq, Repr

/-- The kernel request structures passed to `setsockopt`, by shape. -/
inductive Payload where
  /-- For `struct group_req`: interface index and group (RFC 3678 ASM). -/
  | groupReq (ifindex : Nat) (group : InetAddr)
  /-- For `struct group_source_req`: interface index, source, group (RFC 3678 SSM). -/
  | groupSourceReq (ifindex : Nat) (source : InetAddr) (group : InetAddr)
  /-- For `struct ipv6_mreq`: multicast address and interface index. -/
  | ipv6Mreq (group : InetAddr) (ifindex : Nat)
  /-- For `struct ip_mreqn`: multicast address and interface index. -/
  | ipMreqn (group : InetAddr) (ifindex : Nat)
  /-- For `struct ip_mreq`: multicast address and the local interface address. -/
  | ipMreq (group : InetAddr) (inaddr : InetAddr)
  /-- For `struct mfcctl`: origin, group, parent VIF and TTL vector. -/
  | mfcctl (origin : InetAddr) (group : InetAddr) (parent : Nat) (ttls : List Nat)
  /-- For `struct mf6cctl`: origin, group, parent and outbound interface bitset,
  represented as the ascending list of set bit indices. -/
  | mf6cctl (origin : InetAddr) (group : InetAddr) (parent : Nat) (ifset : List Nat)
deriving DecidableEq, Repr

/-- The `smclog` severities used in this file. -/
inductive LogLevel where
  | debug
  | warning
  | err
deriving DecidableEq, Repr

/-- How the source is rendered in group log lines: the literal `*` for
Any-Source requests, or the address text otherwise. -/
inductive SourceRepr where
  | star
  | addr (a : InetAddr)
deriving DecidableEq, Repr

/-- The log messages emitted by `src/kern.c`, carrying their format arguments
symbolically. -/
inductive LogMsg where
  /-- RFC 3678 variant: "Join/Leave group (src,grp) on ifindex I and socket S ...". -/
  | attemptGroup (join : Bool) (src : SourceRepr) (group : InetAddr) (ifindex : Nat) (sd : Int)
  /-- Legacy variant: "Join/Leave group (*,grp) on ifindex I ...". -/
  | attemptGroupLegacy (join : Bool) (group : InetAddr) (ifindex : Nat)
  /-- Line "Failed joining/leaving group (src,grp/len) on sd S ... E: strerror(E)". -/
  | failGroup (joining : Bool) (src : SourceRepr) (group : InetAddr) (len : Nat) (sd : Int) (errno : Nat)
  /-- Line "No IPv4 multicast socket". -/
  | noSocket4
  /-- Line "No IPv6 multicast socket". -/
  | noSocket6
  /-- Line "failed removing (IPv6) multicast route (o,g), does not exist.". -/
  | mrouteNoExist (v6 : Bool) (origin : InetAddr) (group : InetAddr)
  /-- Line "failed adding/removing IPv4/IPv6 multicast route (o,g): strerror(E)". -/
  | mrouteFail (v6 : Bool) (adding : Bool) (origin : InetAddr) (group : InetAddr) (errno : Nat)
  /-- Line "Add/Del o -> g from VIF I". -/
  | mrouteApply (adding : Bool) (origin : InetAddr) (group : InetAddr) (inbound : Nat)
deriving DecidableEq, Repr

/-- Observable events of one operation, in order of occurrence. -/
inductive Event where
  | log (lvl : LogLevel) (msg : LogMsg)
  | setsockopt (sd : Int) (proto : Nat) (op : SockOpt) (payload : Payload)
  | mrdiscEnable (ifindex : Nat)
  | mrdiscDisable (ifindex : Nat)
deriving DecidableEq, Repr

/-- The fields of `struct iface` this file reads: the interface index and,
for the pre-`ip_mreqn` legacy path, the local IPv4 address. -/
structure Iface where
  ifindex : Nat
  inaddr : InetAddr
deriving DecidableEq, Repr

/-- For `struct mcgroup`: group, source, interface and prefix length (`len`). -/
structure Mcgroup where
  group : InetAddr
  source : InetAddr
  iface : Iface
  len : Nat
deriving DecidableEq, Repr

/-- For `struct mroute` as read by this file: the (S,G) pair, the inbound
(parent) interface and the TTL vector, modelled as a total function from
array index to TTL value. -/
structure Mroute where
  source : InetAddr
  group : InetAddr
  inbound : Nat
  ttl : Nat → Nat

/-- Compile-time configuration of `src/kern.c`: which kernel structures the
build has (`HAVE_STRUCT_GROUP_REQ`, `HAVE_IPV6_MULTICAST_HOST`,
`HAVE_STRUCT_IP_MREQN`). -/
structure BuildConfig where
  hasGroupReq : Bool
  hasIPv6 : Bool
  hasMreqn : Bool
deriving DecidableEq, Repr

/-- The `setsockopt` return value under the kernel oracle: 0 on success,
-1 on failure (with `errno` set to the oracle's error code). -/
def sockRet (kern : Option Nat) : Int :=
  match kern with
  | none => 0
  | some _ => -1

/-- Function `group_req`, RFC 3678 variant (`HAVE_STRUCT_GROUP_REQ`): ASM join/leave
via `struct group_req` when the source is the any-address, SSM join/leave
via `struct group_source_req` otherwise; one debug log before the call. -/
def group_req_rfc3678 (hasIPv6 : Bool) (sd : Int) (cmd : Nat) (mcg : Mcgroup)
    (kern : Option Nat) : Int × List Event :=
  let proto := if hasIPv6 && mcg.group.family == Family.inet6 then IPPROTO_IPV6 else IPPROTO_IP
  if is_anyaddr mcg.source then
    let op := if cmd == CMD_JOIN then SockOpt.MCAST_JOIN_GROUP else SockOpt.MCAST_LEAVE_GROUP
    (sockRet kern,
      [Event.log LogLevel.debug
         (LogMsg.attemptGroup (cmd == CMD_JOIN) SourceRepr.star mcg.group mcg.iface.ifindex sd),
       Event.setsockopt sd proto op (Payload.groupReq mcg.iface.ifindex mcg.group)])
  else
    let op := if cmd == CMD_JOIN then SockOpt.MCAST_JOIN_SOURCE_GROUP else SockOpt.MCAST_LEAVE_SOURCE_GROUP
    (sockRet kern,
      [Event.log LogLevel.debug
         (LogMsg.attemptGroup (cmd == CMD_JOIN) (SourceRepr.addr mcg.source) mcg.group mcg.iface.ifindex sd),
       Event.setsockopt sd proto op (Payload.groupSourceReq mcg.iface.ifindex mcg.source mcg.group)])

/-- Function `group_req`, legacy variant (no `HAVE_STRUCT_GROUP_REQ`): per-family
membership via `struct ipv6_mreq` (IPv6) or `struct ip_mreqn`/`ip_mreq`
(IPv4); one debug log before the call. -/
def group_req_legacy (hasIPv6 hasMreqn : Bool) (sd : Int) (cmd : Nat) (mcg : Mcgroup)
    (kern : Option Nat) : Int × List Event :=
  if hasIPv6 && mcg.group.family == Family.inet6 then
    let op := if cmd == CMD_JOIN then SockOpt.IPV6_JOIN_GROUP else SockOpt.IPV6_LEAVE_GROUP
    (sockRet kern,
      [Event.log LogLevel.debug (LogMsg.attemptGroupLegacy (cmd == CMD_JOIN) mcg.group mcg.iface.ifindex),
       Event.setsockopt sd IPPROTO_IPV6 op (Payload.ipv6Mreq mcg.group mcg.iface.ifindex)])
  else
    let op := if cmd == CMD_JOIN then SockOpt.IP_ADD_MEMBERSHIP else SockOpt.IP_DROP_MEMBERSHIP
    let payload := if hasMreqn then Payload.ipMreqn mcg.group mcg.iface.ifindex
                   else Payload.ipMreq mcg.group mcg.iface.inaddr
    (sockRet kern,
      [Event.log LogLevel.debug (LogMsg.attemptGroupLegacy (cmd == CMD_JOIN) mcg.group mcg.iface.ifindex),
       Event.setsockopt sd IPPROTO_IP op payload])

/-- Function `group_req`: the one variant selected at build time. -/
def group_req (cfg : BuildConfig) (sd : Int) (cmd : Nat) (mcg : Mcgroup)
    (kern : Option Nat) : Int × List Event :=
  if cfg.hasGroupReq then group_req_rfc3678 cfg.hasIPv6 sd cmd mcg kern
  else group_req_legacy cfg.hasIPv6 cfg.hasMreqn sd cmd mcg kern

/-- Function `kern_join_leave`: defaults `cmd` 0 to the join command, dispatches to
`group_req`, and on failure emits the error log with source (`*` for ASM),
group, prefix length (32 when unset), socket and errno. -/
def kern_join_leave (cfg : BuildConfig) (sd : Int) (cmd0 : Nat) (mcg : Mcgroup)
    (kern : Option Nat) : Int × List Event :=
  let cmd := if cmd0 == 0 then CMD_JOIN else cmd0
  let r := group_req cfg sd cmd mcg kern
  if r.1 ≠ 0 then
    let src := if is_anyaddr mcg.source then SourceRepr.star else SourceRepr.addr mcg.source
    let len := if mcg.len == 0 then 32 else mcg.len
    (1, r.2 ++ [Event.log LogLevel.err
                  (LogMsg.failGroup (cmd == CMD_JOIN) src mcg.group len sd (kern.getD 0))])
  else
    (0, r.2)

/-- The TTL vector copied into `struct mfcctl`: exactly
`NELEMS(mc.mfcc_ttls)` (= `maxvifs`) entries of the route's TTL array. -/
def mfcc_ttls (maxvifs : Nat) (route : Mroute) : List Nat :=
  (List.range maxvifs).map route.ttl

/-- Function `kern_mroute4`: install (`cmd = 'a'`) or remove an IPv4 multicast route.
`maxvifs` is `NELEMS(mc.mfcc_ttls)`, the kernel structure's TTL vector
size. `active` is the notify flag controlling the mrdisc side effect. -/
def kern_mroute4 (maxvifs : Nat) (sd : Int) (cmd : Nat) (route : Mroute) (active : Bool)
    (kern : Option Nat) : Int × List Event :=
  let op := if cmd == CMD_ADD then SockOpt.MRT_ADD_MFC else SockOpt.MRT_DEL_MFC
  if sd == -1 then
    (-1, [Event.log LogLevel.debug LogMsg.noSocket4])
  else
    let mc := Payload.mfcctl route.source route.group route.inbound (mfcc_ttls maxvifs route)
    let callEv := Event.setsockopt sd IPPROTO_IP op mc
    match kern with
    | some e =>
      if e == ENOENT then
        (1, [callEv, Event.log LogLevel.debug (LogMsg.mrouteNoExist false route.source route.group)])
      else
        (1, [callEv, Event.log LogLevel.debug
               (LogMsg.mrouteFail false (cmd == CMD_ADD) route.source route.group e)])
    | none =>
      if active then
        (0, [callEv,
             Event.log LogLevel.debug
               (LogMsg.mrouteApply (cmd == CMD_ADD) route.source route.group route.inbound),
             if cmd == CMD_ADD then Event.mrdiscEnable route.inbound
             else Event.mrdiscDisable route.inbound])
      else
        (0, [callEv])

/-- The `mf6cc_ifset` bitset: zeroed by `IF_ZERO`, then `IF_SET(i)` for each
index `i` below `NELEMS(route->ttl)` (= `ttlLen`) whose TTL is nonzero;
represented as the ascending list of set indices. -/
def mf6cc_ifset (ttlLen : Nat) (route : Mroute) : List Nat :=
  (List.range ttlLen).filter (fun i => route.ttl i != 0)

/-- Function `kern_mroute6`: install or remove an IPv6 multicast route. `ttlLen` is
`NELEMS(route->ttl)`, the size of the route's TTL array. -/
def kern_mroute6 (ttlLen : Nat) (sd : Int) (cmd : Nat) (route : Mroute)
    (kern : Option Nat) : Int × List Event :=
  let op := if cmd == CMD_ADD then SockOpt.MRT6_ADD_MFC else SockOpt.MRT6_DEL_MFC
  if sd < 0 then
    (-1, [Event.log LogLevel.debug LogMsg.noSocket6])
  else
    let mc := Payload.mf6cctl route.source route.group route.inbound (mf6cc_ifset ttlLen route)
    let callEv := Event.setsockopt sd IPPROTO_IPV6 op mc
    match kern with
    | some e =>
      if e == ENOENT then
        (1, [callEv, Event.log LogLevel.debug (LogMsg.mrouteNoExist true route.source route.group)])
      else
        (1, [callEv, Event.log LogLevel.warning
               (LogMsg.mrouteFail true (cmd == CMD_ADD) route.source route.group e)])
    | none =>
      (0, [callEv])

/-- One `setsockopt` kernel call as recorded in the trace. -/
structure KernCall where
  sd : Int
  proto : Nat
  op : SockOpt
  payload : Payload
deriving DecidableEq, Repr

/-- The kernel calls issued during a trace, in order. -/
def sentCalls (evs : List Event) : List KernCall :=
  evs.filterMap (fun e => match e with
    | Event.setsockopt s p op pl => some ⟨s, p, op, pl⟩
    | _ => none)

/-- The socket-option names of the kernel calls issued during a trace. -/
def sentOps (evs : List Event) : List SockOpt :=
  evs.filterMap (fun e => match e with
    | Event.setsockopt _ _ op _ => some op
    | _ => none)

/-- The mrdisc (discovery-protocol) notifications in a trace. -/
def mrdiscEvents (evs : List Event) : List Event :=
  evs.filter (fun e => match e with
    | Event.mrdiscEnable _ => true
    | Event.mrdiscDisable _ => true
    | _ => false)

/-- Whether an event is the operational-failure log line of the mroute
functions ("failed adding/removing ... multicast route ..."). -/
def isOpFailLog (e : Event) : Bool :=
  match e with
  | Event.log _ (LogMsg.mrouteFail _ _ _ _ _) => true
  | _ => false

/-- Source-Specific membership options: the request carries a source. -/
def isSSMOp (op : SockOpt) : Bool :=
  match op with
  | SockOpt.MCAST_JOIN_SOURCE_GROUP => true
  | SockOpt.MCAST_LEAVE_SOURCE_GROUP => true
  | _ => false

/-- Join-flavoured membership options (as opposed to leave/drop). -/
def isJoinOp (op : SockOpt) : Bool :=
  match op with
  | SockOpt.MCAST_JOIN_GROUP => true
  | SockOpt.MCAST_JOIN_SOURCE_GROUP => true
  | SockOpt.IPV6_JOIN_GROUP => true
  | SockOpt.IP_ADD_MEMBERSHIP => true
  | _ => false

/-- A concrete IPv4 multicast group address. -/
def exGroup4 : InetAddr := ⟨Family.inet, [239, 1, 2, 3]⟩

/-- A concrete, non-any IPv4 source address. -/
def exSource4 : InetAddr := ⟨Family.inet, [192, 168, 1, 1]⟩

/-- The all-zeros "any" IPv4 address. -/
def exAnyAddr : InetAddr := ⟨Family.inet, [0, 0, 0, 0]⟩

/-- A concrete interface: index 2, local address 10.0.0.1. -/
def exIface : Iface := ⟨2, ⟨Family.inet, [10, 0, 0, 1]⟩⟩

/-- A concrete SSM membership request (source 192.168.1.1). -/
def exMcg : Mcgroup := ⟨exGroup4, exSource4, exIface, 0⟩

/-- A concrete route whose TTL vector reads [0, 5, 0, 3]. -/
def exRoute : Mroute := ⟨exSource4, exGroup4, 1, fun i => [0, 5, 0, 3].getD i 0⟩

/-- A legacy build: no `struct group_req`, with IPv6 and `struct ip_mreqn`. -/
def legacyCfg : BuildConfig := ⟨false, true, true⟩

/-- An RFC 3678 build: `struct group_req` available. -/
def rfcCfg : BuildConfig := ⟨true, true, true⟩

theorem mfcc_ttls_getD (maxvifs : Nat) (r : Mroute) (i : Nat) (h : i < maxvifs) :
    (mfcc_ttls maxvifs r).getD i 0 = r.ttl i := by
  simp [mfcc_ttls, List.getD_eq_getElem?_getD, List.getElem?_map, List.getElem?_range h]

/-- C2 (amended): `kern_mroute4` with the sentinel descriptor -1 and
`kern_mroute6` with any negative descriptor return the distinct "no socket"
outcome -1 with only a debug log and no kernel call, and -1 is distinct
from the generic failure outcome 1. (`kern_mroute4` treats exactly -1 as
unavailable, not every negative descriptor.) -/
theorem c2_no_socket_precondition (maxvifs ttlLen : Nat) (cmd : Nat) (r : Mroute)
    (a : Bool) (k k6 : Option Nat) (sd6 : Int) (h6 : sd6 < 0) :
    kern_mroute4 maxvifs (-1) cmd r a k = (-1, [Event.log LogLevel.debug LogMsg.noSocket4]) ∧
    kern_mroute6 ttlLen sd6 cmd r k6 = (-1, [Event.log LogLevel.debug LogMsg.noSocket6]) ∧
    (-1 : Int) ≠ 1 := by
  refine ⟨by simp [kern_mroute4], ?_, by decide⟩
  simp [kern_mroute6, h6]

/-- C2 witness. -/
theorem c2_no_socket_precondition_witness :
    (-3 : Int) < 0 ∧
    (kern_mroute4 4 (-1) CMD_ADD exRoute false none =
       (-1, [Event.log LogLevel.debug LogMsg.noSocket4]) ∧
     kern_mroute6 4 (-3) CMD_ADD exRoute none =
       (-1, [Event.log LogLevel.debug LogMsg.noSocket6]) ∧
     (-1 : Int) ≠ 1) :=
  ⟨by decide, c2_no_socket_precondition 4 4 CMD_ADD exRoute false none none (-3) (by decide)⟩

/-- C2 counterexample: the claim says every negative descriptor is treated
as unavailable, but `kern_mroute4` only checks for -1: with descriptor -2
it issues the kernel call and does not return the -1 precondition outcome. -/
theorem c2_counterexample :
    (-2 : Int) < 0 ∧
    (kern_mroute4 4 (-2) CMD_ADD exRoute false none).1 = 0 ∧
    sentCalls (kern_mroute4 4 (-2) CMD_ADD exRoute false none).2 =
      [⟨-2, IPPROTO_IP, SockOpt.MRT_ADD_MFC,
        Payload.mfcctl exSource4 exGroup4 1 [0, 5, 0, 3]⟩] := by
  decide

/-- C3: the TTL vector copied into the IPv4 cache-control structure has
exactly `maxvifs` (the kernel structure's vector size) entries, never more,
and entry `i` equals the caller's logical TTL vector at `i` for every index
below that bound; the submitted `mfcctl` payload carries that vector. -/
theorem c3_ttl_vector_bounded (maxvifs : Nat) (sd : Int) (cmd : Nat) (r : Mroute)
    (a : Bool) (k : Option Nat) (hsd : sd ≠ -1) :
    sentCalls (kern_mroute4 maxvifs sd cmd r a k).2 =
      [⟨sd, IPPROTO_IP, if cmd == CMD_ADD then SockOpt.MRT_ADD_MFC else SockOpt.MRT_DEL_MFC,
        Payload.mfcctl r.source r.group r.inbound (mfcc_ttls maxvifs r)⟩] ∧
    (mfcc_ttls maxvifs r).length = maxvifs ∧
    (∀ i, i < maxvifs → (mfcc_ttls maxvifs r).getD i 0 = r.ttl i) := by
  refine ⟨?_, by simp [mfcc_ttls], fun i h => mfcc_ttls_getD maxvifs r i h⟩
  rcases k with _ | e
  · by_cases hc : cmd = CMD_ADD <;> by_cases ha : a <;>
      simp [kern_mroute4, hsd, sentCalls, ha, hc]
  · by_cases he : e == ENOENT <;> simp [kern_mroute4, hsd, sentCalls, he]

/-- C3 witness. -/
theorem c3_ttl_vector_bounded_witness :
    (3 : Int) ≠ -1 ∧
    (sentCalls (kern_mroute4 4 3 CMD_ADD exRoute true none).2 =
       [⟨3, IPPROTO_IP, if CMD_ADD == CMD_ADD then SockOpt.MRT_ADD_MFC else SockOpt.MRT_DEL_MFC,
         Payload.mfcctl exRoute.source exRoute.group exRoute.inbound (mfcc_ttls 4 exRoute)⟩] ∧
     (mfcc_ttls 4 exRoute).length = 4 ∧
     (∀ i, i < 4 → (mfcc_ttls 4 exRoute).getD i 0 = exRoute.ttl i)) :=
  ⟨by decide, c3_ttl_vector_bounded 4 3 CMD_ADD exRoute true none (by decide)⟩

/-- C4: the IPv6 interface bitset starts cleared and gets bit `i` set iff
the route's TTL vector is nonzero at `i` (for `i` below the vector size);
the submitted `mf6cctl` payload carries that bitset, and the TTL vector
[0, 5, 0, 3] yields exactly bits 1 and 3. -/
theorem c4_ifset_from_ttl (ttlLen : Nat) (sd : Int) (cmd : Nat) (r : Mroute)
    (k : Option Nat) (hsd : ¬ sd < 0) :
    sentCalls (kern_mroute6 ttlLen sd cmd r k).2 =
      [⟨sd, IPPROTO_IPV6, if cmd == CMD_ADD then SockOpt.MRT6_ADD_MFC else SockOpt.MRT6_DEL_MFC,
        Payload.mf6cctl r.source r.group r.inbound (mf6cc_ifset ttlLen r)⟩] ∧
    (∀ i, i ∈ mf6cc_ifset ttlLen r ↔ (i < ttlLen ∧ r.ttl i ≠ 0)) ∧
    mf6cc_ifset 4 exRoute = [1, 3] := by
  refine ⟨?_, ?_, by decide⟩
  · rcases k with _ | e
    · simp [kern_mroute6, hsd, sentCalls]
    · by_cases he : e == ENOENT <;> simp [kern_mroute6, hsd, sentCalls, he]
  · intro i
    simp [mf6cc_ifset, List.mem_filter, List.mem_range]

/-- C4 witness. -/
theorem c4_ifset_from_ttl_witness :
    ¬ (3 : Int) < 0 ∧
    (sentCalls (kern_mroute6 4 3 CMD_ADD exRoute none).2 =
       [⟨3, IPPROTO_IPV6, if CMD_ADD == CMD_ADD then SockOpt.MRT6_ADD_MFC else SockOpt.MRT6_DEL_MFC,
         Payload.mf6cctl exRoute.source exRoute.group exRoute.inbound (mf6cc_ifset 4 exRoute)⟩] ∧
     (∀ i, i ∈ mf6cc_ifset 4 exRoute ↔ (i < 4 ∧ exRoute.ttl i ≠ 0)) ∧
     mf6cc_ifset 4 exRoute = [1, 3]) :=
  ⟨by decide, c4_ifset_from_ttl 4 3 CMD_ADD exRoute none (by decide)⟩

/-- C5: on a failed kernel submission both mroute functions return the
generic failure 1; errno = ENOENT gets the benign "does not exist" debug
log, any other errno gets the operational-failure log carrying the
operation name and errno — at debug severity on the IPv4 path and warning
severity on the IPv6 path. -/
theorem c5_failure_diagnosis (maxvifs ttlLen : Nat) (sd4 sd6 : Int) (cmd : Nat)
    (r : Mroute) (a : Bool) (e : Nat) (h4 : sd4 ≠ -1) (h6 : ¬ sd6 < 0) :
    (kern_mroute4 maxvifs sd4 cmd r a (some e)).1 = 1 ∧
    (kern_mroute6 ttlLen sd6 cmd r (some e)).1 = 1 ∧
    (e = ENOENT →
      Event.log LogLevel.debug (LogMsg.mrouteNoExist false r.source r.group) ∈
        (kern_mroute4 maxvifs sd4 cmd r a (some e)).2 ∧
      Event.log LogLevel.debug (LogMsg.mrouteNoExist true r.source r.group) ∈
        (kern_mroute6 ttlLen sd6 cmd r (some e)).2) ∧
    (e ≠ ENOENT →
      Event.log LogLevel.debug (LogMsg.mrouteFail false (cmd == CMD_ADD) r.source r.group e) ∈
        (kern_mroute4 maxvifs sd4 cmd r a (some e)).2 ∧
      Event.log LogLevel.warning (LogMsg.mrouteFail true (cmd == CMD_ADD) r.source r.group e) ∈
        (kern_mroute6 ttlLen sd6 cmd r (some e)).2) := by
  by_cases he : e = ENOENT <;>
    simp [kern_mroute4, kern_mroute6, h4, h6, he]

/-- C5 witness. -/
theorem c5_failure_diagnosis_witness :
    ((3 : Int) ≠ -1 ∧ ¬ (3 : Int) < 0) ∧
    ((kern_mroute4 4 3 CMD_ADD exRoute true (some 13)).1 = 1 ∧
     (kern_mroute6 4 3 CMD_ADD exRoute (some 13)).1 = 1 ∧
     ((13 : Nat) = ENOENT →
       Event.log LogLevel.debug (LogMsg.mrouteNoExist false exRoute.source exRoute.group) ∈
         (kern_mroute4 4 3 CMD_ADD exRoute true (some 13)).2 ∧
       Event.log LogLevel.debug (LogMsg.mrouteNoExist true exRoute.source exRoute.group) ∈
         (kern_mroute6 4 3 CMD_ADD exRoute (some 13)).2) ∧
     ((13 : Nat) ≠ ENOENT →
       Event.log LogLevel.debug
           (LogMsg.mrouteFail false (CMD_ADD == CMD_ADD) exRoute.source exRoute.group 13) ∈
         (kern_mroute4 4 3 CMD_ADD exRoute true (some 13)).2 ∧
       Event.log LogLevel.warning
           (LogMsg.mrouteFail true (CMD_ADD == CMD_ADD) exRoute.source exRoute.group 13) ∈
         (kern_mroute6 4 3 CMD_ADD exRoute (some 13)).2)) :=
  ⟨⟨by decide, by decide⟩,
   c5_failure_diagnosis 4 4 3 3 CMD_ADD exRoute true 13 (by decide) (by decide)⟩

/-- C6: `kern_mroute4` makes exactly one mrdisc call — enable on the
inbound interface for ADD, disable for DELETE — precisely when the socket
is available, the kernel call succeeds and the active/notify flag is set;
otherwise none. `kern_mroute6` never makes an mrdisc call. -/
theorem c6_mrdisc_side_effect (maxvifs ttlLen : Nat) (sd4 sd6 : Int) (cmd : Nat)
    (r : Mroute) (a : Bool) (k k6 : Option Nat) :
    mrdiscEvents (kern_mroute4 maxvifs sd4 cmd r a k).2 =
      (if sd4 ≠ -1 ∧ k = none ∧ a = true then
        [if cmd == CMD_ADD then Event.mrdiscEnable r.inbound else Event.mrdiscDisable r.inbound]
      else []) ∧
    mrdiscEvents (kern_mroute6 ttlLen sd6 cmd r k6).2 = [] := by
  constructor
  · by_cases hsd : sd4 = -1
    · simp [kern_mroute4, mrdiscEvents, hsd]
    · rcases k with _ | e
      · by_cases hc : cmd = CMD_ADD <;> by_cases ha : a <;>
          simp [kern_mroute4, mrdiscEvents, hsd, hc, ha]
      · by_cases he : e == ENOENT <;>
          simp [kern_mroute4, mrdiscEvents, hsd, he]
  · by_cases hsd : sd6 < 0
    · simp [kern_mroute6, mrdiscEvents, hsd]
    · rcases k6 with _ | e
      · simp [kern_mroute6, mrdiscEvents, hsd]
      · by_cases he : e == ENOENT <;>
          simp [kern_mroute6, mrdiscEvents, hsd, he]

/-- C10: the benign-non-existence branch is selected purely by the errno:
a failed ADD (`cmd = 'a'`) with errno = ENOENT gets the debug "does not
exist" log and never the operational-failure log, on both the IPv4 and the
IPv6 path. -/
theorem c10_enoent_ignores_cmd (maxvifs ttlLen : Nat) (sd4 sd6 : Int) (r : Mroute)
    (a : Bool) (h4 : sd4 ≠ -1) (h6 : ¬ sd6 < 0) :
    (Event.log LogLevel.debug (LogMsg.mrouteNoExist false r.source r.group) ∈
       (kern_mroute4 maxvifs sd4 CMD_ADD r a (some ENOENT)).2 ∧
     (kern_mroute4 maxvifs sd4 CMD_ADD r a (some ENOENT)).2.any isOpFailLog = false) ∧
    (Event.log LogLevel.debug (LogMsg.mrouteNoExist true r.source r.group) ∈
       (kern_mroute6 ttlLen sd6 CMD_ADD r (some ENOENT)).2 ∧
     (kern_mroute6 ttlLen sd6 CMD_ADD r (some ENOENT)).2.any isOpFailLog = false) := by
  simp [kern_mroute4, kern_mroute6, h4, h6, isOpFailLog]

/-- C10 witness. -/
theorem c10_enoent_ignores_cmd_witness :
    ((3 : Int) ≠ -1 ∧ ¬ (3 : Int) < 0) ∧
    ((Event.log LogLevel.debug (LogMsg.mrouteNoExist false exRoute.source exRoute.group) ∈
        (kern_mroute4 4 3 CMD_ADD exRoute true (some ENOENT)).2 ∧
      (kern_mroute4 4 3 CMD_ADD exRoute true (some ENOENT)).2.any isOpFailLog = false) ∧
     (Event.log LogLevel.debug (LogMsg.mrouteNoExist true exRoute.source exRoute.group) ∈
        (kern_mroute6 4 3 CMD_ADD exRoute (some ENOENT)).2 ∧
      (kern_mroute6 4 3 CMD_ADD exRoute (some ENOENT)).2.any isOpFailLog = false)) :=
  ⟨⟨by decide, by decide⟩,
   c10_enoent_ignores_cmd 4 4 3 3 exRoute true (by decide) (by decide)⟩

theorem group_req_shape (cfg : BuildConfig) (sd : Int) (cmd : Nat) (mcg : Mcgroup)
    (kern : Option Nat) :
    ∃ m s p op pl,
      group_req cfg sd cmd mcg kern =
        (sockRet kern, [Event.log LogLevel.debug m, Event.setsockopt s p op pl]) := by
  by_cases hg : cfg.hasGroupReq
  · by_cases hs : is_anyaddr mcg.source
    · exact ⟨LogMsg.attemptGroup (cmd == CMD_JOIN) SourceRepr.star mcg.group mcg.iface.ifindex sd,
        sd, if cfg.hasIPv6 && mcg.group.family == Family.inet6 then IPPROTO_IPV6 else IPPROTO_IP,
        if cmd == CMD_JOIN then SockOpt.MCAST_JOIN_GROUP else SockOpt.MCAST_LEAVE_GROUP,
        Payload.groupReq mcg.iface.ifindex mcg.group,
        by simp [group_req, group_req_rfc3678, hg, hs]⟩
    · exact ⟨LogMsg.attemptGroup (cmd == CMD_JOIN) (SourceRepr.addr mcg.source) mcg.group
          mcg.iface.ifindex sd,
        sd, if cfg.hasIPv6 && mcg.group.family == Family.inet6 then IPPROTO_IPV6 else IPPROTO_IP,
        if cmd == CMD_JOIN then SockOpt.MCAST_JOIN_SOURCE_GROUP else SockOpt.MCAST_LEAVE_SOURCE_GROUP,
        Payload.groupSourceReq mcg.iface.ifindex mcg.source mcg.group,
        by simp [group_req, group_req_rfc3678, hg, hs]⟩
  · by_cases h6 : cfg.hasIPv6 && mcg.group.family == Family.inet6
    · exact ⟨LogMsg.attemptGroupLegacy (cmd == CMD_JOIN) mcg.group mcg.iface.ifindex,
        sd, IPPROTO_IPV6,
        if cmd == CMD_JOIN then SockOpt.IPV6_JOIN_GROUP else SockOpt.IPV6_LEAVE_GROUP,
        Payload.ipv6Mreq mcg.group mcg.iface.ifindex,
        by simp [group_req, group_req_legacy, hg, h6]⟩
    · exact ⟨LogMsg.attemptGroupLegacy (cmd == CMD_JOIN) mcg.group mcg.iface.ifindex,
        sd, IPPROTO_IP,
        if cmd == CMD_JOIN then SockOpt.IP_ADD_MEMBERSHIP else SockOpt.IP_DROP_MEMBERSHIP,
        if cfg.hasMreqn then Payload.ipMreqn mcg.group mcg.iface.ifindex
          else Payload.ipMreq mcg.group mcg.iface.inaddr,
        by simp [group_req, group_req_legacy, hg, h6]⟩

theorem kern_join_leave_sentCalls (cfg : BuildConfig) (sd : Int) (cmd0 : Nat) (mcg : Mcgroup)
    (k : Option Nat) :
    sentCalls (kern_join_leave cfg sd cmd0 mcg k).2 =
      sentCalls (group_req cfg sd (if cmd0 == 0 then CMD_JOIN else cmd0) mcg k).2 := by
  simp only [kern_join_leave]
  split <;> split <;> simp [sentCalls, List.filterMap_append]

theorem kern_join_leave_sentOps (cfg : BuildConfig) (sd : Int) (cmd0 : Nat) (mcg : Mcgroup)
    (k : Option Nat) :
    sentOps (kern_join_leave cfg sd cmd0 mcg k).2 =
      sentOps (group_req cfg sd (if cmd0 == 0 then CMD_JOIN else cmd0) mcg k).2 := by
  simp only [kern_join_leave]
  split <;> split <;> simp [sentOps, List.filterMap_append]

theorem group_req_rfc3678_calls (hasIPv6 : Bool) (sd : Int) (cmd : Nat) (mcg : Mcgroup)
    (k : Option Nat) :
    ∀ c ∈ sentCalls (group_req_rfc3678 hasIPv6 sd cmd mcg k).2,
      (is_anyaddr mcg.source = true →
        (c.op = SockOpt.MCAST_JOIN_GROUP ∨ c.op = SockOpt.MCAST_LEAVE_GROUP) ∧
        c.payload = Payload.groupReq mcg.iface.ifindex mcg.group) ∧
      (is_anyaddr mcg.source = false →
        (c.op = SockOpt.MCAST_JOIN_SOURCE_GROUP ∨ c.op = SockOpt.MCAST_LEAVE_SOURCE_GROUP) ∧
        c.payload = Payload.groupSourceReq mcg.iface.ifindex mcg.source mcg.group) := by
  intro c hc
  by_cases hs : is_anyaddr mcg.source <;>
    simp [group_req_rfc3678, sentCalls, hs] at hc <;>
    subst hc <;>
    by_cases hj : cmd = CMD_JOIN <;>
    simp [hs, hj]

/-- C1 (amended): under the RFC 3678 implementation, every kernel request a
membership operation issues is the Any-Source `MCAST_JOIN_GROUP` or
`MCAST_LEAVE_GROUP` carrying only (interface, group) when the source is the
all-zeros any-address, and the Source-Specific `MCAST_JOIN_SOURCE_GROUP` or
`MCAST_LEAVE_SOURCE_GROUP` carrying that source otherwise — never the other
variant. (The legacy implementation has no source-specific path.) -/
theorem c1_asm_ssm_selection (cfg : BuildConfig) (sd : Int) (cmd : Nat) (mcg : Mcgroup)
    (k : Option Nat) (hcfg : cfg.hasGroupReq = true) :
    ∀ c ∈ sentCalls (kern_join_leave cfg sd cmd mcg k).2,
      (is_anyaddr mcg.source = true →
        (c.op = SockOpt.MCAST_JOIN_GROUP ∨ c.op = SockOpt.MCAST_LEAVE_GROUP) ∧
        c.payload = Payload.groupReq mcg.iface.ifindex mcg.group) ∧
      (is_anyaddr mcg.source = false →
        (c.op = SockOpt.MCAST_JOIN_SOURCE_GROUP ∨ c.op = SockOpt.MCAST_LEAVE_SOURCE_GROUP) ∧
        c.payload = Payload.groupSourceReq mcg.iface.ifindex mcg.source mcg.group) := by
  intro c hc
  rw [kern_join_leave_sentCalls] at hc
  rw [show group_req cfg sd (if cmd == 0 then CMD_JOIN else cmd) mcg k =
      group_req_rfc3678 cfg.hasIPv6 sd (if cmd == 0 then CMD_JOIN else cmd) mcg k from
    by simp [group_req, hcfg]] at hc
  exact group_req_rfc3678_calls cfg.hasIPv6 sd (if cmd == 0 then CMD_JOIN else cmd) mcg k c hc

/-- The kernel call issued by the C1 witness request. -/
def exCall : KernCall :=
  ⟨7, IPPROTO_IP, SockOpt.MCAST_JOIN_SOURCE_GROUP, Payload.groupSourceReq 2 exSource4 exGroup4⟩

/-- C1 witness. -/
theorem c1_asm_ssm_selection_witness :
    rfcCfg.hasGroupReq = true ∧
    exCall ∈ sentCalls (kern_join_leave rfcCfg 7 CMD_JOIN exMcg none).2 ∧
    ((is_anyaddr exMcg.source = true →
       (exCall.op = SockOpt.MCAST_JOIN_GROUP ∨ exCall.op = SockOpt.MCAST_LEAVE_GROUP) ∧
       exCall.payload = Payload.groupReq exMcg.iface.ifindex exMcg.group) ∧
     (is_anyaddr exMcg.source = false →
       (exCall.op = SockOpt.MCAST_JOIN_SOURCE_GROUP ∨ exCall.op = SockOpt.MCAST_LEAVE_SOURCE_GROUP) ∧
       exCall.payload = Payload.groupSourceReq exMcg.iface.ifindex exMcg.source exMcg.group)) :=
  ⟨rfl, by decide, c1_asm_ssm_selection rfcCfg 7 CMD_JOIN exMcg none rfl exCall (by decide)⟩

/-- C1 counterexample: in a legacy build (the active implementation when
`struct group_req` is absent), a request with the concrete non-any source
192.168.1.1 is dispatched as `IP_ADD_MEMBERSHIP`, which is not a
Source-Specific join, refuting the claim for that build. -/
theorem c1_legacy_not_ssm :
    legacyCfg.hasGroupReq = false ∧
    is_anyaddr exMcg.source = false ∧
    sentOps (kern_join_leave legacyCfg 7 CMD_JOIN exMcg none).2 = [SockOpt.IP_ADD_MEMBERSHIP] ∧
    isSSMOp SockOpt.IP_ADD_MEMBERSHIP = false := by
  decide

/-- C7: every membership operation first emits a debug log describing the
attempt and then issues the kernel call; on failure the trace ends with an
error-severity log carrying the operation (joining/leaving), the source
(`*` for Any-Source), the group, the prefix length with 32 substituted for
zero, the socket descriptor and the OS error code. -/
theorem c7_membership_logging (cfg : BuildConfig) (sd : Int) (cmd : Nat) (mcg : Mcgroup)
    (k : Option Nat) (e : Nat) :
    (∃ m s p op pl rest,
      (kern_join_leave cfg sd cmd mcg k).2 =
        Event.log LogLevel.debug m :: Event.setsockopt s p op pl :: rest) ∧
    (kern_join_leave cfg sd cmd mcg (some e)).2.getLast? =
      some (Event.log LogLevel.err
        (LogMsg.failGroup ((if cmd == 0 then CMD_JOIN else cmd) == CMD_JOIN)
          (if is_anyaddr mcg.source then SourceRepr.star else SourceRepr.addr mcg.source)
          mcg.group (if mcg.len == 0 then 32 else mcg.len) sd e)) := by
  constructor
  · obtain ⟨m, s, p, op, pl, h⟩ :=
      group_req_shape cfg sd (if cmd == 0 then CMD_JOIN else cmd) mcg k
    simp only [beq_iff_eq] at h
    refine ⟨m, s, p, op, pl, ?_⟩
    rcases k with _ | e'
    · exact ⟨[], by simp [kern_join_leave, h, sockRet]⟩
    · refine ⟨[Event.log LogLevel.err
        (LogMsg.failGroup ((if cmd == 0 then CMD_JOIN else cmd) == CMD_JOIN)
          (if is_anyaddr mcg.source then SourceRepr.star else SourceRepr.addr mcg.source)
          mcg.group (if mcg.len == 0 then 32 else mcg.len) sd e')], ?_⟩
      simp [kern_join_leave, h, sockRet]
  · obtain ⟨m, s, p, op, pl, h⟩ :=
      group_req_shape cfg sd (if cmd == 0 then CMD_JOIN else cmd) mcg (some e)
    simp only [beq_iff_eq] at h
    simp [kern_join_leave, h, sockRet, List.getLast?]

/-- C8: return values are tri-state — `kern_join_leave` returns only 0
(success) or 1 (generic failure); the two cache managers return 0, 1 or
the distinct "no socket" outcome -1, and return -1 exactly in their
no-socket precondition case; -1 differs from both 0 and 1. -/
theorem c8_tristate_returns (cfg : BuildConfig) (maxvifs ttlLen : Nat) (sdm sd4 sd6 : Int)
    (cmdm cmd : Nat) (mcg : Mcgroup) (r : Mroute) (a : Bool) (km k4 k6 : Option Nat) :
    ((kern_join_leave cfg sdm cmdm mcg km).1 = 0 ∨ (kern_join_leave cfg sdm cmdm mcg km).1 = 1) ∧
    ((kern_mroute4 maxvifs sd4 cmd r a k4).1 = -1 ∨ (kern_mroute4 maxvifs sd4 cmd r a k4).1 = 0 ∨
      (kern_mroute4 maxvifs sd4 cmd r a k4).1 = 1) ∧
    ((kern_mroute4 maxvifs sd4 cmd r a k4).1 = -1 ↔ sd4 = -1) ∧
    ((kern_mroute6 ttlLen sd6 cmd r k6).1 = -1 ∨ (kern_mroute6 ttlLen sd6 cmd r k6).1 = 0 ∨
      (kern_mroute6 ttlLen sd6 cmd r k6).1 = 1) ∧
    ((kern_mroute6 ttlLen sd6 cmd r k6).1 = -1 ↔ sd6 < 0) ∧
    ((-1 : Int) ≠ 0 ∧ (-1 : Int) ≠ 1) := by
  refine ⟨?_, ?_, ?_, ?_, ?_, by decide, by decide⟩
  · obtain ⟨m, s, p, op, pl, h⟩ :=
      group_req_shape cfg sdm (if cmdm == 0 then CMD_JOIN else cmdm) mcg km
    simp only [beq_iff_eq] at h
    rcases km with _ | e' <;> simp [kern_join_leave, h, sockRet]
  · by_cases hsd : sd4 = -1
    · simp [kern_mroute4, hsd]
    · rcases k4 with _ | e'
      · by_cases ha : a <;> simp [kern_mroute4, hsd, ha]
      · by_cases he : e' == ENOENT <;> simp [kern_mroute4, hsd, he]
  · by_cases hsd : sd4 = -1
    · simp [kern_mroute4, hsd]
    · rcases k4 with _ | e'
      · by_cases ha : a <;> simp [kern_mroute4, hsd, ha]
      · by_cases he : e' == ENOENT <;> simp [kern_mroute4, hsd, he]
  · by_cases hsd : sd6 < 0
    · simp [kern_mroute6, hsd]
    · rcases k6 with _ | e'
      · simp [kern_mroute6, hsd]
      · by_cases he : e' == ENOENT <;> simp [kern_mroute6, hsd, he]
  · by_cases hsd : sd6 < 0
    · simp [kern_mroute6, hsd]
    · rcases k6 with _ | e'
      · simp [kern_mroute6, hsd]
      · by_cases he : e' == ENOENT <;> simp [kern_mroute6, hsd, he]

theorem group_req_sentOps_isJoin (cfg : BuildConfig) (sd : Int) (cmd : Nat) (mcg : Mcgroup)
    (k : Option Nat) :
    ∀ op ∈ sentOps (group_req cfg sd cmd mcg k).2, isJoinOp op = (cmd == CMD_JOIN) := by
  intro op hop
  by_cases hg : cfg.hasGroupReq
  · by_cases hs : is_anyaddr mcg.source <;>
      simp [group_req, group_req_rfc3678, sentOps, hg, hs] at hop <;>
      subst hop <;>
      by_cases hj : cmd = CMD_JOIN <;>
      simp [hj, isJoinOp]
  · by_cases h6 : cfg.hasIPv6 && mcg.group.family == Family.inet6 <;>
      simp [group_req, group_req_legacy, sentOps, hg, h6] at hop <;>
      subst hop <;>
      by_cases hj : cmd = CMD_JOIN <;>
      simp [hj, isJoinOp]

/-- C9: `kern_join_leave` replaces command 0 by the join command before
dispatch, and the issued operation is a join iff the effective command is
`j`: every kernel call's option is join-flavoured exactly when the original
command was 0 or `j`, and leave-flavoured for every other command value. -/
theorem c9_join_dispatch (cfg : BuildConfig) (sd : Int) (cmd : Nat) (mcg : Mcgroup)
    (k : Option Nat) :
    ∀ op ∈ sentOps (kern_join_leave cfg sd cmd mcg k).2,
      (isJoinOp op = true ↔ (cmd = 0 ∨ cmd = CMD_JOIN)) := by
  intro op hop
  rw [kern_join_leave_sentOps] at hop
  have h := group_req_sentOps_isJoin cfg sd (if cmd == 0 then CMD_JOIN else cmd) mcg k op hop
  rw [h]
  by_cases h0 : cmd = 0 <;> simp [h0]

/-- C9 witness. -/
theorem c9_join_dispatch_witness :
    SockOpt.MCAST_JOIN_SOURCE_GROUP ∈ sentOps (kern_join_leave rfcCfg 7 0 exMcg none).2 ∧
    (isJoinOp SockOpt.MCAST_JOIN_SOURCE_GROUP = true ↔ ((0 : Nat) = 0 ∨ (0 : Nat) = CMD_JOIN)) :=
  ⟨by decide, c9_join_dispatch rfcCfg 7 0 exMcg none SockOpt.MCAST_JOIN_SOURCE_GROUP (by decide)⟩
